import Mathlib

/-
Verification development for the snowbridge relayer command
`relayer/cmd/generate_beacon_data.go`.

The two cobra commands (`generate-beacon-checkpoint` and
`generate-beacon-data`) are embedded as pure Lean functions over a stub of
their external collaborators (the beacon protocol client, the config
loader, the filesystem and the mustache template engine).  Each run
produces an ordered trace of observable events (fetch calls, file writes,
sleeps, rendering, stdout prints) together with the `error` value the
inner closure returns (`Option GoError`, `none` standing for Go's `nil`).
-/

/-! ## Network spec (config.ActiveSpec) -/

inductive Spec where
  | mainnet
  | minimal
deriving DecidableEq

/-- Modelled from the spec: the config package (not under `src/`) maps the
spec identifier to its string form; valid values are `mainnet` and
`minimal`. -/
def Spec.toString : Spec → String
  | .mainnet => "mainnet"
  | .minimal => "minimal"

/-- Modelled from the spec: `activeSpec.IsMainnet()` from the config
package (not under `src/`); true exactly for the mainnet spec. -/
def Spec.isMainnet : Spec → Bool
  | .mainnet => true
  | .minimal => false

/-- Modelled from the spec: `config.ToSpec` (not under `src/`) parses the
`spec` flag; "Valid values are mainnet or minimal", anything else is a
configuration error. -/
def toSpec (s : String) : Except String Spec :=
  if s = "mainnet" then .ok .mainnet
  else if s = "minimal" then .ok .minimal
  else .error ("invalid spec: " ++ s)

/-! ## Artifact data model

Only the fields the command actually reads are modelled; every other part
of an artifact is opaque to this file.  The hash-valued fields that
`RemoveLeadingZeroHashes` rewrites are gathered into a `hashes` list. -/

structure BeaconHeader where
  slot : Nat
deriving DecidableEq

structure CheckPointJSON where
  header : BeaconHeader
  hashes : List String
deriving DecidableEq

structure UpdateJSON where
  attestedHeader : BeaconHeader
  signatureSlot : Nat
  hashes : List String
deriving DecidableEq

structure HeaderUpdateJSON where
  hashes : List String
deriving DecidableEq

/-- The scale-encoded checkpoint returned by `syncer.GetCheckpoint`;
`toJSONv` models its `ToJSON()` method and `encodeBytes` the binary call
payload produced by `types.EncodeToBytes` (an external library, kept
opaque as a list of byte values). -/
structure CheckPointScale where
  toJSONv : CheckPointJSON
  encodeBytes : List Nat
deriving DecidableEq

structure UpdatePayload where
  finalizedHeader : BeaconHeader
  toJSONv : UpdateJSON
deriving DecidableEq

/-- The scale-encoded update returned by `GetSyncCommitteePeriodUpdate`
and `GetFinalizedUpdate`: a payload plus the finalized header block root
and block-roots tree used to build the ancestry-proof context. -/
structure UpdateScale where
  payload : UpdatePayload
  finalizedHeaderBlockRoot : String
  blockRootsTree : List String
deriving DecidableEq

structure HeaderUpdateScale where
  toJSONv : HeaderUpdateJSON
deriving DecidableEq

/-- `cache.Proof`: the ancestry-proof context handed to
`GetNextHeaderUpdateBySlotWithAncestryProof`. -/
structure Proof where
  finalizedBlockRoot : String
  blockRootsTree : List String
  slot : Nat
deriving DecidableEq

/-- The record handed to the mustache template (`type Data struct`). -/
structure Data where
  checkpointUpdate : CheckPointJSON
  syncCommitteeUpdate : UpdateJSON
  finalizedHeaderUpdate : UpdateJSON
  headerUpdate : HeaderUpdateJSON
deriving DecidableEq

/-- The value handed to `writeJSONToFile` (Go `interface{}`). -/
inductive Artifact where
  | checkpoint : CheckPointJSON → Artifact
  | update : UpdateJSON → Artifact
  | headerUpdate : HeaderUpdateJSON → Artifact
deriving DecidableEq

/-! ## uint64 arithmetic -/

/-- 2 ^ 64, the modulus of Go's uint64 arithmetic. -/
def uint64Mod : Nat := 18446744073709551616

/-- Go uint64 subtraction: wraps around modulo 2 ^ 64. -/
def uint64Sub (a b : Nat) : Nat :=
  (a % uint64Mod + (uint64Mod - b % uint64Mod)) % uint64Mod

/-! ## Hex encoding (Go's `encoding/hex`, lowercase) -/

/-- One nibble of Go's hextable "0123456789abcdef". -/
def hexDigit (n : Nat) : Char :=
  if n < 10 then Char.ofNat (48 + n) else Char.ofNat (87 + n)

/-- `hex.EncodeToString`: high nibble then low nibble for each byte. -/
def hexChars : List Nat → List Char
  | [] => []
  | b :: t => hexDigit (b / 16) :: hexDigit (b % 16) :: hexChars t

def hexEncodeToString (bs : List Nat) : String := String.mk (hexChars bs)

def isHexChar (c : Char) : Bool := List.contains ("0123456789abcdef".data) c

def isLowerHexString (s : String) : Bool := s.data.all isHexChar

/-! ## Hash canonicalization (beaconjson.RemoveLeadingZeroHashes) -/

/-- Modelled from the spec: whether a string carries the fixed
two-character "0x" marker that the canonicalizer removes.  The
`RemoveLeadingZeroHashes` methods live in the beaconjson package, which is
not under `src/`. -/
def has0x (s : String) : Bool :=
  match s.data with
  | c1 :: c2 :: _ => c1 = '0' && c2 = 'x'
  | _ => false

/-- Modelled from the spec: the per-field canonicalization pass — remove
the fixed two-character "0x" marker if present, leaving a bare lowercase
hex string; leave the field unchanged otherwise. -/
def strip0x (s : String) : String :=
  if has0x s then String.mk (s.data.drop 2) else s

/-- A well-formed hash field: a bare hex string, possibly carrying the
"0x" marker. -/
def isHashField (s : String) : Bool :=
  if has0x s then (s.data.drop 2).all isHexChar else s.data.all isHexChar

/-- Modelled from the spec: `CheckPoint.RemoveLeadingZeroHashes` rewrites
every hash-valued field by the per-field pass. -/
def CheckPointJSON.removeLeadingZeroHashes (c : CheckPointJSON) : CheckPointJSON :=
  { c with hashes := c.hashes.map strip0x }

/-- Modelled from the spec: `Update.RemoveLeadingZeroHashes`. -/
def UpdateJSON.removeLeadingZeroHashes (u : UpdateJSON) : UpdateJSON :=
  { u with hashes := u.hashes.map strip0x }

/-- Modelled from the spec: `HeaderUpdate.RemoveLeadingZeroHashes`. -/
def HeaderUpdateJSON.removeLeadingZeroHashes (h : HeaderUpdateJSON) : HeaderUpdateJSON :=
  { h with hashes := h.hashes.map strip0x }

/-! ## Errors

Go builds its errors with `fmt.Errorf`; the consistency errors carry the
two compared values.  `GoError.message` reproduces the formatted text. -/

inductive GoError where
  | plain : String → GoError
  | wrap : String → GoError → GoError
  | periodDrift : Nat → Nat → GoError
  | finalizedPeriodMismatch : Nat → Nat → GoError
  | attestedSlotNotGreater : Nat → Nat → GoError
deriving DecidableEq

def GoError.message : GoError → String
  | .plain s => s
  | .wrap ctx inner => ctx ++ ": " ++ inner.message
  | .periodDrift p0 p1 =>
      "initialSyncPeriod " ++ toString p0 ++
      " should be consistent with syncCommitteePeriod " ++ toString p1
  | .finalizedPeriodMismatch p0 pf =>
      "initialSyncPeriod " ++ toString p0 ++
      " should be consistent with finalizedUpdatePeriod " ++ toString pf
  | .attestedSlotNotGreater a s =>
      "AttestedHeader slot " ++ toString a ++
      " should be greater than initialSyncHeaderSlot " ++ toString s

/-! ## Observable events -/

inductive Event where
  | fetchCheckpoint : Event
  | fetchSyncCommitteeUpdate : Nat → Event
  | fetchFinalizedUpdate : Event
  | fetchHeaderUpdate : Nat → Proof → Event
  | write : String → Artifact → Bool → Event
  | writeBench : String → String → Bool → Event
  | sleep : Nat → Event
  | render : Data → Event
  | println : String → Event
  | logError : String → String → Event
deriving DecidableEq

def Event.isFetchSyncCommitteeUpdate : Event → Bool
  | .fetchSyncCommitteeUpdate _ => true
  | _ => false

def Event.isFetchFinalizedUpdate : Event → Bool
  | .fetchFinalizedUpdate => true
  | _ => false

def Event.isFetchHeaderUpdate : Event → Bool
  | .fetchHeaderUpdate _ _ => true
  | _ => false

def Event.isWrite : Event → Bool
  | .write _ _ _ => true
  | _ => false

def Event.isWriteBench : Event → Bool
  | .writeBench _ _ _ => true
  | _ => false

def Event.isRender : Event → Bool
  | .render _ => true
  | _ => false

def Event.isPrintln : Event → Bool
  | .println _ => true
  | _ => false

/-- Whether the event writes the fixture file with the given path. -/
def Event.writesPath (e : Event) (path : String) : Bool :=
  match e with
  | .write p _ _ => p = path
  | _ => false

/-! ## Flags (cobra/pflag semantics) -/

def lookupBy {β : Type} : List (String × β) → String → Option β
  | [], _ => none
  | (k, v) :: t, name => if k = name then some v else lookupBy t name

structure FlagSet where
  strings : List (String × String)
  bools : List (String × Bool)

/-- pflag `GetString`: the flag value, or the zero value with an error
when the flag was never defined. -/
def FlagSet.getString (fs : FlagSet) (name : String) : String × Option String :=
  match lookupBy fs.strings name with
  | some v => (v, none)
  | none => ("", some ("flag accessed but not defined: " ++ name))

/-- pflag `GetBool`: the flag value, or `false` with an error when the
flag was never defined. -/
def FlagSet.getBool (fs : FlagSet) (name : String) : Bool × Option String :=
  match lookupBy fs.bools name with
  | some v => (v, none)
  | none => (false, some ("flag accessed but not defined: " ++ name))

/-- The flag set registered by `generateBeaconDataCmd`: string flags
`spec` and `url`. -/
def dataCmdFlags (specVal urlVal : String) : FlagSet :=
  { strings := [("spec", specVal), ("url", urlVal)], bools := [] }

/-- The flag set registered by `generateBeaconCheckpointCmd`: string
flags `spec` and `url` plus the bool flag `export-json` (default true). -/
def checkpointCmdFlags (specVal urlVal : String) (exportJson : Bool) : FlagSet :=
  { strings := [("spec", specVal), ("url", urlVal)],
    bools := [("export-json", exportJson)] }

/-! ## Stubbed collaborators -/

/-- The beacon protocol client interface consumed by the commands
(`syncer.New`), stubbed as a record of call results. -/
structure Syncer where
  computeSyncPeriodAtSlot : Nat → Nat
  getCheckpoint : Except String CheckPointScale
  getSyncCommitteePeriodUpdate : Nat → Except String UpdateScale
  getFinalizedUpdate : Except String UpdateScale
  getNextHeaderUpdateBySlotWithAncestryProof : Nat → Proof → Except String HeaderUpdateScale

/-- Filesystem and template-engine stub: `writeOk path` is `none` when
opening and writing `path` succeeds and `some msg` on an os error;
`renderFile` is `mustache.RenderFile` on the fixed template (rendered
text, optional error). -/
structure IoStub where
  writeOk : String → Option String
  renderFile : Data → String × Option String

/-- One command invocation's environment: flag values as registered,
viper config-load results, the protocol client and the io stub. -/
structure Stub where
  flags : FlagSet
  readInConfig : Except String Unit
  unmarshal : Except String Unit
  syncer : Syncer
  io : IoStub

/-! ## Fixed paths and constants -/

def pathToBeaconBenchmarkData : String :=
  "parachain/pallets/ethereum-beacon-client/src/benchmarking"

def pathToBenchmarkDataTemplate : String :=
  "parachain/templates/benchmark-fixtures.mustache"

def pathToBeaconTestFixtureFiles : String :=
  "parachain/pallets/ethereum-beacon-client/tests/fixtures"

/-- Call index for EthereumBeaconClient.force_checkpoint. -/
def checkPointCallIndex : String := "0x3200"

def fixturePath (filename : String) : String :=
  pathToBeaconTestFixtureFiles ++ "/" ++ filename

def benchmarkPath (filename : String) : String :=
  pathToBeaconBenchmarkData ++ "/" ++ filename

/-! ## File writers -/

/-- `writeJSONToFile`: marshal the artifact and write it under the
fixture directory; an os failure is wrapped as a create-file error.  (The
marshalling error itself is discarded by the source: `file, _ :=
json.MarshalIndent(...)`.) -/
def writeJSONToFile (io : IoStub) (data : Artifact) (filename : String) :
    Event × Option GoError :=
  (.write (fixturePath filename) data ((io.writeOk (fixturePath filename)).isNone),
   (io.writeOk (fixturePath filename)).map (fun e => .wrap "create file" (.plain e)))

/-- `writeBenchmarkDataFile`: write the rendered text under the benchmark
data directory. -/
def writeBenchmarkDataFile (io : IoStub) (filename fileContents : String) :
    Event × Option GoError :=
  (.writeBench (benchmarkPath filename) fileContents ((io.writeOk (benchmarkPath filename)).isNone),
   (io.writeOk (benchmarkPath filename)).map (fun e => .wrap "create file" (.plain e)))

/-! ## generate-beacon-data: the pipeline after config resolution -/

/-- The body of `generateBeaconData`'s inner closure once the spec is
resolved and the syncer constructed (source lines 171-279).  Returns the
ordered event trace and the closure's returned error. -/
def generateBeaconDataInner (s : Syncer) (io : IoStub) (activeSpec : Spec) :
    List Event × Option GoError :=
  match s.getCheckpoint with
  | .error e => ([.fetchCheckpoint], some (.wrap "get initial sync" (.plain e)))
  | .ok initialSyncScale =>
    let initialSync := initialSyncScale.toJSONv
    -- the error of this write is assigned but never checked in the source
    let ev1 := (writeJSONToFile io (.checkpoint initialSync)
      ("initial-checkpoint." ++ activeSpec.toString ++ ".json")).1
    let initialSyncHeaderSlot := initialSync.header.slot
    let initialSyncPeriod := s.computeSyncPeriodAtSlot initialSyncHeaderSlot
    -- time.Sleep(6 * time.Second * 5): wait for 5 blocks
    let syncCommitteePeriod := s.computeSyncPeriodAtSlot (initialSyncHeaderSlot + 5)
    if initialSyncPeriod ≠ syncCommitteePeriod then
      ([.fetchCheckpoint, ev1, .sleep 30],
       some (.periodDrift initialSyncPeriod syncCommitteePeriod))
    else
      match s.getSyncCommitteePeriodUpdate syncCommitteePeriod with
      | .error e =>
          ([.fetchCheckpoint, ev1, .sleep 30, .fetchSyncCommitteeUpdate syncCommitteePeriod],
           some (.wrap "get sync committee update" (.plain e)))
      | .ok syncCommitteeUpdateScale =>
        let syncCommitteeUpdate := syncCommitteeUpdateScale.payload.toJSONv
        let w2 := writeJSONToFile io (.update syncCommitteeUpdate)
          ("sync-committee-update." ++ activeSpec.toString ++ ".json")
        let tr2 := [Event.fetchCheckpoint, ev1, .sleep 30,
                    .fetchSyncCommitteeUpdate syncCommitteePeriod, w2.1]
        match w2.2 with
        | some e => (tr2, some (.wrap "write sync committee update to file" e))
        | none =>
          match s.getFinalizedUpdate with
          | .error e =>
              (tr2 ++ [.fetchFinalizedUpdate],
               some (.wrap "get finalized header update" (.plain e)))
          | .ok finalizedUpdateScale =>
            let finalizedUpdate := finalizedUpdateScale.payload.toJSONv
            let w3 := writeJSONToFile io (.update finalizedUpdate)
              ("finalized-header-update." ++ activeSpec.toString ++ ".json")
            let tr3 := tr2 ++ [Event.fetchFinalizedUpdate, w3.1]
            match w3.2 with
            | some e => (tr3, some (.wrap "write finalized header update to file" e))
            | none =>
              let finalizedUpdatePeriod :=
                s.computeSyncPeriodAtSlot finalizedUpdate.signatureSlot
              if initialSyncPeriod ≠ finalizedUpdatePeriod then
                (tr3, some (.finalizedPeriodMismatch initialSyncPeriod finalizedUpdatePeriod))
              else if finalizedUpdate.attestedHeader.slot ≤ initialSyncHeaderSlot then
                (tr3, some (.attestedSlotNotGreater finalizedUpdate.attestedHeader.slot
                                                    initialSyncHeaderSlot))
              else
                let blockUpdateSlot :=
                  uint64Sub finalizedUpdateScale.payload.finalizedHeader.slot 2
                let checkPoint : Proof :=
                  { finalizedBlockRoot := finalizedUpdateScale.finalizedHeaderBlockRoot,
                    blockRootsTree := finalizedUpdateScale.blockRootsTree,
                    slot := finalizedUpdateScale.payload.finalizedHeader.slot }
                match s.getNextHeaderUpdateBySlotWithAncestryProof blockUpdateSlot checkPoint with
                | .error e =>
                    (tr3 ++ [.fetchHeaderUpdate blockUpdateSlot checkPoint],
                     some (.wrap "get header update" (.plain e)))
                | .ok headerUpdateScale =>
                  let headerUpdate := headerUpdateScale.toJSONv
                  let w4 := writeJSONToFile io (.headerUpdate headerUpdate)
                    ("execution-header-update." ++ activeSpec.toString ++ ".json")
                  let tr4 := tr3 ++ [Event.fetchHeaderUpdate blockUpdateSlot checkPoint, w4.1]
                  match w4.2 with
                  | some e => (tr4, some (.wrap "write block update to file" e))
                  | none =>
                    if activeSpec.isMainnet then
                      let data : Data :=
                        { checkpointUpdate := initialSync.removeLeadingZeroHashes,
                          syncCommitteeUpdate := syncCommitteeUpdate.removeLeadingZeroHashes,
                          finalizedHeaderUpdate := finalizedUpdate.removeLeadingZeroHashes,
                          headerUpdate := headerUpdate.removeLeadingZeroHashes }
                      -- the render error is assigned but never checked in the source
                      let rendered := (io.renderFile data).1
                      let w5 := writeBenchmarkDataFile io "fixtures.rs" rendered
                      let tr5 := tr4 ++ [Event.render data, w5.1]
                      match w5.2 with
                      | some e => (tr5, some e)
                      | none => (tr5, none)
                    else
                      (tr4, none)

/-- The inner closure of `generateBeaconData` (source lines 141-280):
flag and config resolution, then the pipeline. -/
def generateBeaconDataRun (st : Stub) : List Event × Option GoError :=
  let (specStr, specErr) := st.flags.getString "spec"
  match specErr with
  | some e => ([], some (.wrap "get active spec" (.plain e)))
  | none =>
    match toSpec specStr with
    | .error e => ([], some (.wrap "get spec" (.plain e)))
    | .ok activeSpec =>
      -- the url GetString error is shadowed before being checked
      let (_endpoint, _urlErr) := st.flags.getString "url"
      match st.readInConfig with
      | .error e => ([], some (.plain e))
      | .ok _ =>
        match st.unmarshal with
        | .error e => ([], some (.plain e))
        | .ok _ => generateBeaconDataInner st.syncer st.io activeSpec

/-- The `generateBeaconData` command function: runs the inner closure,
logs any error, and returns Go `nil` unconditionally (source lines
281-285). -/
def generateBeaconData (st : Stub) : List Event × Option GoError :=
  match generateBeaconDataRun st with
  | (tr, some err) => (tr ++ [.logError "error generating beacon data" err.message], none)
  | (tr, none) => (tr, none)

/-! ## generate-beacon-checkpoint -/

/-- The inner closure of `generateBeaconCheckpoint` (source lines
85-132). -/
def generateBeaconCheckpointRun (st : Stub) : List Event × Option GoError :=
  let (specStr, specErr) := st.flags.getString "spec"
  match specErr with
  | some e => ([], some (.wrap "get active spec" (.plain e)))
  | none =>
    match toSpec specStr with
    | .error e => ([], some (.wrap "get spec" (.plain e)))
    | .ok _activeSpec =>
      let (_endpoint, _urlErr) := st.flags.getString "url"
      match st.readInConfig with
      | .error e => ([], some (.plain e))
      | .ok _ =>
        match st.unmarshal with
        | .error e => ([], some (.plain e))
        | .ok _ =>
          match st.syncer.getCheckpoint with
          | .error e => ([.fetchCheckpoint], some (.wrap "get initial sync" (.plain e)))
          | .ok checkPointScale =>
            -- the source reads flag "export_json" although the command
            -- registered "export-json"; the GetBool error is discarded
            let (exportJson, _ejErr) := st.flags.getBool "export_json"
            if exportJson then
              let initialSync := checkPointScale.toJSONv
              let (ev, errw) := writeJSONToFile st.io (.checkpoint initialSync)
                "dump-initial-checkpoint.json"
              match errw with
              | some e => ([.fetchCheckpoint, ev], some (.wrap "write initial sync to file" e))
              | none =>
                -- the EncodeToBytes error is discarded: checkPointBytes, _ := ...
                let out := checkPointCallIndex ++ hexEncodeToString checkPointScale.encodeBytes
                ([.fetchCheckpoint, ev, .println out], none)
            else
              let out := checkPointCallIndex ++ hexEncodeToString checkPointScale.encodeBytes
              ([.fetchCheckpoint, .println out], none)

/-- The `generateBeaconCheckpoint` command function: runs the inner
closure, logs any error, and returns Go `nil` unconditionally (source
lines 133-137). -/
def generateBeaconCheckpoint (st : Stub) : List Event × Option GoError :=
  match generateBeaconCheckpointRun st with
  | (tr, some err) => (tr ++ [.logError "error generating beacon checkpoint" err.message], none)
  | (tr, none) => (tr, none)

/-! ## Concrete stub instances used by the witnesses -/

def sampleIo : IoStub :=
  { writeOk := fun _ => none, renderFile := fun _ => ("bench source", none) }

/-- Io stub whose only failure is creating the initial-checkpoint fixture
for the minimal spec. -/
def failInitialWriteIo : IoStub :=
  { writeOk := fun p =>
      if p = fixturePath "initial-checkpoint.minimal.json" then some "permission denied"
      else none,
    renderFile := fun _ => ("bench source", none) }

/-- Io stub whose template rendering fails (mustache returns an empty
string together with an error). -/
def failRenderIo : IoStub :=
  { writeOk := fun _ => none, renderFile := fun _ => ("", some "template not found") }

def sampleCheckpointScale : CheckPointScale :=
  { toJSONv := { header := { slot := 100 }, hashes := ["0xaa11", "beef"] },
    encodeBytes := [0, 26, 255] }

def sampleSyncScale : UpdateScale :=
  { payload := { finalizedHeader := { slot := 999 },
                 toJSONv := { attestedHeader := { slot := 104 }, signatureSlot := 108,
                              hashes := ["0xdd44"] } },
    finalizedHeaderBlockRoot := "0x01", blockRootsTree := ["0xcc33"] }

def sampleFinalizedScale : UpdateScale :=
  { payload := { finalizedHeader := { slot := 1000 },
                 toJSONv := { attestedHeader := { slot := 105 }, signatureSlot := 110,
                              hashes := ["0xbb22"] } },
    finalizedHeaderBlockRoot := "0xf00d", blockRootsTree := ["0xcc33", "0xcc34"] }

/-- A finalized update whose finalized header sits at slot 1, to exercise
the uint64 wrap-around of the target-slot computation. -/
def wrapFinalizedScale : UpdateScale :=
  { payload := { finalizedHeader := { slot := 1 },
                 toJSONv := { attestedHeader := { slot := 105 }, signatureSlot := 110,
                              hashes := ["0xbb22"] } },
    finalizedHeaderBlockRoot := "0xf00d", blockRootsTree := ["0xcc33"] }

/-- A finalized update whose signature slot falls in a later sync period
(500 / 64 = 7 while the checkpoint period is 100 / 64 = 1). -/
def mismatchFinalizedScale : UpdateScale :=
  { payload := { finalizedHeader := { slot := 1000 },
                 toJSONv := { attestedHeader := { slot := 105 }, signatureSlot := 500,
                              hashes := ["0xbb22"] } },
    finalizedHeaderBlockRoot := "0xf00d", blockRootsTree := ["0xcc33"] }

def sampleHeaderScale : HeaderUpdateScale := { toJSONv := { hashes := ["0xee55"] } }

/-- A protocol-client stub for a fully consistent run: 64 slots per sync
period, checkpoint at slot 100, finalized header at slot 1000. -/
def sampleSyncer : Syncer :=
  { computeSyncPeriodAtSlot := fun s => s / 64,
    getCheckpoint := .ok sampleCheckpointScale,
    getSyncCommitteePeriodUpdate := fun _ => .ok sampleSyncScale,
    getFinalizedUpdate := .ok sampleFinalizedScale,
    getNextHeaderUpdateBySlotWithAncestryProof := fun _ _ => .ok sampleHeaderScale }

/-- A stub whose sync-period function changes between slot 100 and slot
105 (period = slot), triggering the period-drift abort. -/
def driftSyncer : Syncer :=
  { sampleSyncer with computeSyncPeriodAtSlot := fun s => s }

/-- A stub whose finalized update violates the signature-slot period
invariant. -/
def mismatchSyncer : Syncer :=
  { sampleSyncer with getFinalizedUpdate := .ok mismatchFinalizedScale }

/-- A stub whose finalized header slot is 1, so the unguarded target-slot
subtraction wraps. -/
def wrapSyncer : Syncer :=
  { sampleSyncer with getFinalizedUpdate := .ok wrapFinalizedScale }

def runStub (syn : Syncer) (io : IoStub) (specVal : String) : Stub :=
  { flags := dataCmdFlags specVal "http://127.0.0.1:9596",
    readInConfig := .ok (), unmarshal := .ok (), syncer := syn, io := io }

def sampleCheckpointStub : Stub :=
  { flags := checkpointCmdFlags "minimal" "http://127.0.0.1:9596" true,
    readInConfig := .ok (), unmarshal := .ok (), syncer := sampleSyncer, io := sampleIo }

/-- A stub with an empty flag set: reading the required `spec` flag
fails, exercising the configuration-error path. -/
def emptyFlagsStub : Stub :=
  { flags := { strings := [], bools := [] },
    readInConfig := .ok (), unmarshal := .ok (), syncer := sampleSyncer, io := sampleIo }

/-- The canonicalized template record that a successful mainnet run hands
to the renderer. -/
def mainnetData (c : CheckPointScale) (su fu : UpdateScale) (hu : HeaderUpdateScale) : Data :=
  { checkpointUpdate := c.toJSONv.removeLeadingZeroHashes,
    syncCommitteeUpdate := su.payload.toJSONv.removeLeadingZeroHashes,
    finalizedHeaderUpdate := fu.payload.toJSONv.removeLeadingZeroHashes,
    headerUpdate := hu.toJSONv.removeLeadingZeroHashes }

/-! ## Helper lemmas -/

theorem uint64Sub_eq_sub (a : Nat) (h2 : 2 ≤ a) (hlt : a < uint64Mod) :
    uint64Sub a 2 = a - 2 := by
  unfold uint64Sub uint64Mod at *
  omega

theorem uint64Sub_wrap (a : Nat) (hlt : a < 2) :
    uint64Sub a 2 = a + (uint64Mod - 2) := by
  unfold uint64Sub uint64Mod at *
  omega

theorem isHexChar_hexDigit (n : Nat) (h : n < 16) : isHexChar (hexDigit n) = true := by
  interval_cases n <;> decide

theorem hexChars_all_hex (bs : List Nat) (h : ∀ b ∈ bs, b < 256) :
    (hexChars bs).all isHexChar = true := by
  induction bs with
  | nil => rfl
  | cons b t ih =>
    have hb : b < 256 := h b (by simp)
    have h1 : isHexChar (hexDigit (b / 16)) = true := isHexChar_hexDigit _ (by omega)
    have h2 : isHexChar (hexDigit (b % 16)) = true := isHexChar_hexDigit _ (by omega)
    have ht : t.all (fun x => decide (x < 256)) = true := by
      simp only [List.all_eq_true, decide_eq_true_eq]
      exact fun x hx => h x (by simp [hx])
    simp only [hexChars, List.all_cons, h1, h2, Bool.true_and]
    apply ih
    exact fun x hx => h x (by simp [hx])

theorem hexEncodeToString_lower (bs : List Nat) (h : ∀ b ∈ bs, b < 256) :
    isLowerHexString (hexEncodeToString bs) = true :=
  hexChars_all_hex bs h

theorem has0x_eq_false_of_hex (cs : List Char) (h : cs.all isHexChar = true) :
    has0x (String.mk cs) = false := by
  match cs with
  | [] => rfl
  | [c] => rfl
  | c1 :: c2 :: t =>
    simp only [List.all_cons, Bool.and_eq_true] at h
    simp only [has0x, Bool.and_eq_false_iff, decide_eq_false_iff_not]
    by_cases h2 : c2 = 'x'
    · subst h2
      exact absurd h.2.1 (by decide)
    · exact Or.inr h2

theorem strip0x_idem (s : String) (h : isHashField s = true) :
    strip0x (strip0x s) = strip0x s := by
  unfold isHashField at h
  by_cases h0 : has0x s = true
  · rw [if_pos h0] at h
    unfold strip0x
    rw [if_pos h0]
    rw [if_neg]
    simp only [has0x_eq_false_of_hex (s.data.drop 2) h, Bool.false_eq_true,
      not_false_eq_true]
  · have h0f : has0x s = false := by
      revert h0
      cases has0x s <;> simp
    unfold strip0x
    rw [if_neg (by simp [h0f]), if_neg (by simp [h0f])]

theorem mapStrip_idem (l : List String) (h : l.all isHashField = true) :
    (l.map strip0x).map strip0x = l.map strip0x := by
  induction l with
  | nil => rfl
  | cons a t ih =>
    simp only [List.all_cons, Bool.and_eq_true] at h
    simp only [List.map_cons, strip0x_idem a h.1, List.cons.injEq, true_and]
    exact ih h.2

theorem checkPointJSON_strip_idem (c : CheckPointJSON) (h : c.hashes.all isHashField = true) :
    c.removeLeadingZeroHashes.removeLeadingZeroHashes = c.removeLeadingZeroHashes := by
  simp only [CheckPointJSON.removeLeadingZeroHashes, CheckPointJSON.mk.injEq, true_and]
  exact mapStrip_idem c.hashes h

theorem updateJSON_strip_idem (u : UpdateJSON) (h : u.hashes.all isHashField = true) :
    u.removeLeadingZeroHashes.removeLeadingZeroHashes = u.removeLeadingZeroHashes := by
  simp only [UpdateJSON.removeLeadingZeroHashes, UpdateJSON.mk.injEq, true_and]
  exact mapStrip_idem u.hashes h

theorem headerUpdateJSON_strip_idem (hu : HeaderUpdateJSON)
    (h : hu.hashes.all isHashField = true) :
    hu.removeLeadingZeroHashes.removeLeadingZeroHashes = hu.removeLeadingZeroHashes := by
  simp only [HeaderUpdateJSON.removeLeadingZeroHashes, HeaderUpdateJSON.mk.injEq]
  exact mapStrip_idem hu.hashes h

/-- Flag and config resolution in `generateBeaconData` succeeds on the
flag set the command registers with a valid spec value, reducing the run
to the pipeline body. -/
theorem generateBeaconDataRun_runStub (syn : Syncer) (io : IoStub) (sp : Spec) :
    generateBeaconDataRun (runStub syn io sp.toString) =
      generateBeaconDataInner syn io sp := by
  cases sp <;> rfl

/-! ## Claim theorems -/

/-- C5: for every execution of either command and every internal error
outcome, the command function returns nil to its caller — the error is
logged (a log-error event is appended to the trace) but never propagated,
so the process-level result is always success. -/
theorem claim_C5_commands_return_nil (st st2 : Stub) :
    (generateBeaconData st).2 = none ∧ (generateBeaconCheckpoint st2).2 = none ∧
    (∀ e, (generateBeaconDataRun st).2 = some e →
      Event.logError "error generating beacon data" (e.message) ∈ (generateBeaconData st).1) ∧
    (∀ e, (generateBeaconCheckpointRun st2).2 = some e →
      Event.logError "error generating beacon checkpoint" (e.message)
        ∈ (generateBeaconCheckpoint st2).1) := by
  refine ⟨?_, ?_, ?_, ?_⟩
  · rcases h : generateBeaconDataRun st with ⟨tr, e⟩
    cases e <;> simp [generateBeaconData, h]
  · rcases h : generateBeaconCheckpointRun st2 with ⟨tr, e⟩
    cases e <;> simp [generateBeaconCheckpoint, h]
  · intro e he
    rcases h : generateBeaconDataRun st with ⟨tr, o⟩
    rw [h] at he
    simp only at he
    subst he
    simp [generateBeaconData, h]
  · intro e he
    rcases h : generateBeaconCheckpointRun st2 with ⟨tr, o⟩
    rw [h] at he
    simp only at he
    subst he
    simp [generateBeaconCheckpoint, h]

theorem claim_C5_witness :
    (generateBeaconData emptyFlagsStub).2 = none ∧
    Event.logError "error generating beacon data"
        ((GoError.wrap "get active spec" (.plain "flag accessed but not defined: spec")).message)
      ∈ (generateBeaconData emptyFlagsStub).1 :=
  ⟨(claim_C5_commands_return_nil emptyFlagsStub emptyFlagsStub).1,
   (claim_C5_commands_return_nil emptyFlagsStub emptyFlagsStub).2.2.1 _ rfl⟩

/-- C4: in GenerateCheckpoint, for every successfully fetched and encoded
checkpoint, the string printed to standard output is exactly the fixed
2-byte call-index tag "0x3200" concatenated with the lowercase hex
encoding of the checkpoint's binary call payload. -/
theorem claim_C4_checkpoint_stdout (sp : Spec) (ej : Bool) (syn : Syncer) (io : IoStub)
    (c : CheckPointScale) (hc : syn.getCheckpoint = .ok c)
    (hb : ∀ b ∈ c.encodeBytes, b < 256) :
    ((generateBeaconCheckpointRun
        { flags := checkpointCmdFlags (Spec.toString sp) "http://127.0.0.1:9596" ej,
          readInConfig := .ok (), unmarshal := .ok (), syncer := syn, io := io }).1.filter
        Event.isPrintln
      = [.println ("0x3200" ++ hexEncodeToString c.encodeBytes)]) ∧
    isLowerHexString (hexEncodeToString c.encodeBytes) = true := by
  constructor
  · cases sp <;>
      simp [generateBeaconCheckpointRun, checkpointCmdFlags, FlagSet.getString,
        FlagSet.getBool, lookupBy, toSpec, hc, checkPointCallIndex, Event.isPrintln,
        List.filter]
  · exact hexEncodeToString_lower _ hb

theorem claim_C4_witness :
    ((generateBeaconCheckpointRun sampleCheckpointStub).1.filter Event.isPrintln
      = [.println ("0x3200" ++ hexEncodeToString [0, 26, 255])]) ∧
    isLowerHexString (hexEncodeToString [0, 26, 255]) = true :=
  claim_C4_checkpoint_stdout .minimal true sampleSyncer sampleIo sampleCheckpointScale rfl
    (by decide)

/-- C1: after fetching the checkpoint at slot S, the pipeline compares
syncPeriod(S) with syncPeriod(S + 5); on a mismatch it returns a
period-drift error and aborts before the sync-committee-update fetch (no
sync-committee, finalized-header or execution-header fixture is written),
and on a match it proceeds to that fetch. -/
theorem claim_C1_period_drift_gate (sp : Spec) (syn : Syncer) (io : IoStub)
    (c : CheckPointScale) (hc : syn.getCheckpoint = .ok c) :
    (syn.computeSyncPeriodAtSlot c.toJSONv.header.slot ≠
        syn.computeSyncPeriodAtSlot (c.toJSONv.header.slot + 5) →
      (generateBeaconDataRun (runStub syn io (Spec.toString sp))).2 =
        some (.periodDrift (syn.computeSyncPeriodAtSlot c.toJSONv.header.slot)
                           (syn.computeSyncPeriodAtSlot (c.toJSONv.header.slot + 5))) ∧
      ∀ e ∈ (generateBeaconDataRun (runStub syn io (Spec.toString sp))).1,
        e.isFetchSyncCommitteeUpdate = false ∧
        e.writesPath (fixturePath ("sync-committee-update." ++ Spec.toString sp ++ ".json"))
          = false ∧
        e.writesPath (fixturePath ("finalized-header-update." ++ Spec.toString sp ++ ".json"))
          = false ∧
        e.writesPath (fixturePath ("execution-header-update." ++ Spec.toString sp ++ ".json"))
          = false) ∧
    (syn.computeSyncPeriodAtSlot c.toJSONv.header.slot =
        syn.computeSyncPeriodAtSlot (c.toJSONv.header.slot + 5) →
      Event.fetchSyncCommitteeUpdate (syn.computeSyncPeriodAtSlot (c.toJSONv.header.slot + 5))
        ∈ (generateBeaconDataRun (runStub syn io (Spec.toString sp))).1) := by
  rw [generateBeaconDataRun_runStub]
  constructor
  · intro hne
    constructor
    · simp [generateBeaconDataInner, hc, hne]
    · intro e he
      simp only [generateBeaconDataInner, hc] at he
      rw [if_pos hne] at he
      simp only [writeJSONToFile, List.mem_cons, List.mem_singleton,
        List.not_mem_nil, or_false] at he
      rcases he with he | he | he <;> subst he <;> cases sp <;>
        simp [Event.isFetchSyncCommitteeUpdate, Event.writesPath, fixturePath,
          Spec.toString] <;>
        refine ⟨by decide, by decide, by decide⟩
  · intro heq
    simp only [generateBeaconDataInner, hc]
    rw [if_neg (by simp [heq])]
    repeat' split
    all_goals simp [writeJSONToFile]

theorem claim_C1_witness :
    (100 : Nat) ≠ (105 : Nat) ∧
    (generateBeaconDataRun (runStub driftSyncer sampleIo (Spec.toString .minimal))).2 =
      some (.periodDrift 100 105) :=
  ⟨by decide,
   ((claim_C1_period_drift_gate .minimal driftSyncer sampleIo sampleCheckpointScale rfl).1
      (by decide)).1⟩

/-- Under a consistent checkpoint, a successful sync-committee stage and a
fetched finalized update, the run reaches the header-update fetch as soon
as both finalized-update invariants hold; the fetch is keyed by the
wrapped target slot and the Proof built from the finalized update. -/
theorem reaches_header_fetch (sp : Spec) (syn : Syncer) (io : IoStub)
    (c : CheckPointScale) (su fu : UpdateScale)
    (hc : syn.getCheckpoint = .ok c)
    (hpeq : syn.computeSyncPeriodAtSlot c.toJSONv.header.slot =
      syn.computeSyncPeriodAtSlot (c.toJSONv.header.slot + 5))
    (hsu : syn.getSyncCommitteePeriodUpdate
      (syn.computeSyncPeriodAtSlot (c.toJSONv.header.slot + 5)) = .ok su)
    (hw2 : io.writeOk
      (fixturePath ("sync-committee-update." ++ Spec.toString sp ++ ".json")) = none)
    (hfu : syn.getFinalizedUpdate = .ok fu)
    (hw3 : io.writeOk
      (fixturePath ("finalized-header-update." ++ Spec.toString sp ++ ".json")) = none)
    (hpf : syn.computeSyncPeriodAtSlot c.toJSONv.header.slot =
      syn.computeSyncPeriodAtSlot fu.payload.toJSONv.signatureSlot)
    (hat : c.toJSONv.header.slot < fu.payload.toJSONv.attestedHeader.slot) :
    Event.fetchHeaderUpdate (uint64Sub fu.payload.finalizedHeader.slot 2)
        { finalizedBlockRoot := fu.finalizedHeaderBlockRoot,
          blockRootsTree := fu.blockRootsTree,
          slot := fu.payload.finalizedHeader.slot }
      ∈ (generateBeaconDataRun (runStub syn io (Spec.toString sp))).1 := by
  rw [generateBeaconDataRun_runStub]
  simp only [generateBeaconDataInner, hc, hsu, hfu, writeJSONToFile]
  rw [if_neg (by simp [hpeq])]
  simp only [hw2, hw3, Option.map_none]
  rw [if_neg (by simp [hpf])]
  rw [if_neg (by simp [Nat.not_le, hat])]
  repeat' split
  all_goals simp_all [writeJSONToFile, writeBenchmarkDataFile]

/-- Bridge from a computed `List.all` check to the elementwise form. -/
theorem all_not_fetchHeaderUpdate {l : List Event}
    (h : l.all (fun x => ! (x.isFetchHeaderUpdate)) = true) :
    ∀ e ∈ l, e.isFetchHeaderUpdate = false := by
  intro e he
  have hx := (List.all_eq_true.mp h) e he
  simpa using hx

/-- C2: for every fetched FinalizedHeaderUpdate, if the signature-slot
period differs from the checkpoint period, or the attested header slot is
not greater than the checkpoint slot, the pipeline returns a consistency
error carrying the two compared values and never calls the header-update
fetch; if both invariants hold it proceeds to the header-update stage. -/
theorem claim_C2_finalized_consistency (sp : Spec) (syn : Syncer) (io : IoStub)
    (c : CheckPointScale) (su fu : UpdateScale)
    (hc : syn.getCheckpoint = .ok c)
    (hpeq : syn.computeSyncPeriodAtSlot c.toJSONv.header.slot =
      syn.computeSyncPeriodAtSlot (c.toJSONv.header.slot + 5))
    (hsu : syn.getSyncCommitteePeriodUpdate
      (syn.computeSyncPeriodAtSlot (c.toJSONv.header.slot + 5)) = .ok su)
    (hw2 : io.writeOk
      (fixturePath ("sync-committee-update." ++ Spec.toString sp ++ ".json")) = none)
    (hfu : syn.getFinalizedUpdate = .ok fu)
    (hw3 : io.writeOk
      (fixturePath ("finalized-header-update." ++ Spec.toString sp ++ ".json")) = none) :
    (syn.computeSyncPeriodAtSlot c.toJSONv.header.slot ≠
        syn.computeSyncPeriodAtSlot fu.payload.toJSONv.signatureSlot →
      (generateBeaconDataRun (runStub syn io (Spec.toString sp))).2 =
        some (.finalizedPeriodMismatch
          (syn.computeSyncPeriodAtSlot c.toJSONv.header.slot)
          (syn.computeSyncPeriodAtSlot fu.payload.toJSONv.signatureSlot)) ∧
      ∀ e ∈ (generateBeaconDataRun (runStub syn io (Spec.toString sp))).1,
        e.isFetchHeaderUpdate = false) ∧
    (syn.computeSyncPeriodAtSlot c.toJSONv.header.slot =
        syn.computeSyncPeriodAtSlot fu.payload.toJSONv.signatureSlot →
      fu.payload.toJSONv.attestedHeader.slot ≤ c.toJSONv.header.slot →
      (generateBeaconDataRun (runStub syn io (Spec.toString sp))).2 =
        some (.attestedSlotNotGreater fu.payload.toJSONv.attestedHeader.slot
          c.toJSONv.header.slot) ∧
      ∀ e ∈ (generateBeaconDataRun (runStub syn io (Spec.toString sp))).1,
        e.isFetchHeaderUpdate = false) ∧
    (syn.computeSyncPeriodAtSlot c.toJSONv.header.slot =
        syn.computeSyncPeriodAtSlot fu.payload.toJSONv.signatureSlot →
      c.toJSONv.header.slot < fu.payload.toJSONv.attestedHeader.slot →
      Event.fetchHeaderUpdate (uint64Sub fu.payload.finalizedHeader.slot 2)
          { finalizedBlockRoot := fu.finalizedHeaderBlockRoot,
            blockRootsTree := fu.blockRootsTree,
            slot := fu.payload.finalizedHeader.slot }
        ∈ (generateBeaconDataRun (runStub syn io (Spec.toString sp))).1) := by
  refine ⟨?_, ?_, ?_⟩
  · intro hne
    rw [generateBeaconDataRun_runStub]
    simp only [generateBeaconDataInner, hc, hsu, hfu, writeJSONToFile]
    rw [if_neg (by simp [hpeq])]
    simp only [hw2, hw3, Option.map_none]
    rw [if_pos hne]
    exact ⟨rfl, all_not_fetchHeaderUpdate rfl⟩
  · intro hpf hle
    rw [generateBeaconDataRun_runStub]
    simp only [generateBeaconDataInner, hc, hsu, hfu, writeJSONToFile]
    rw [if_neg (by simp [hpeq])]
    simp only [hw2, hw3, Option.map_none]
    rw [if_neg (by simp [hpf])]
    rw [if_pos hle]
    exact ⟨rfl, all_not_fetchHeaderUpdate rfl⟩
  · intro hpf hat
    exact reaches_header_fetch sp syn io c su fu hc hpeq hsu hw2 hfu hw3 hpf hat

theorem claim_C2_witness :
    (1 : Nat) ≠ (7 : Nat) ∧
    (generateBeaconDataRun (runStub mismatchSyncer sampleIo (Spec.toString .minimal))).2 =
      some (.finalizedPeriodMismatch 1 7) :=
  ⟨by decide,
   ((claim_C2_finalized_consistency .minimal mismatchSyncer sampleIo sampleCheckpointScale
      sampleSyncScale mismatchFinalizedScale rfl rfl rfl rfl rfl rfl).1 (by decide)).1⟩

/-- C3: for every FinalizedHeaderUpdate that passes the consistency
checks, the header-update fetch is called with target slot exactly
finalizedHeader.slot - 2 and with a Proof whose finalized block root,
block-roots tree and slot are taken from that FinalizedHeaderUpdate. -/
theorem claim_C3_header_update_target (sp : Spec) (syn : Syncer) (io : IoStub)
    (c : CheckPointScale) (su fu : UpdateScale)
    (hc : syn.getCheckpoint = .ok c)
    (hpeq : syn.computeSyncPeriodAtSlot c.toJSONv.header.slot =
      syn.computeSyncPeriodAtSlot (c.toJSONv.header.slot + 5))
    (hsu : syn.getSyncCommitteePeriodUpdate
      (syn.computeSyncPeriodAtSlot (c.toJSONv.header.slot + 5)) = .ok su)
    (hw2 : io.writeOk
      (fixturePath ("sync-committee-update." ++ Spec.toString sp ++ ".json")) = none)
    (hfu : syn.getFinalizedUpdate = .ok fu)
    (hw3 : io.writeOk
      (fixturePath ("finalized-header-update." ++ Spec.toString sp ++ ".json")) = none)
    (hpf : syn.computeSyncPeriodAtSlot c.toJSONv.header.slot =
      syn.computeSyncPeriodAtSlot fu.payload.toJSONv.signatureSlot)
    (hat : c.toJSONv.header.slot < fu.payload.toJSONv.attestedHeader.slot)
    (h2 : 2 ≤ fu.payload.finalizedHeader.slot)
    (hlt : fu.payload.finalizedHeader.slot < uint64Mod) :
    Event.fetchHeaderUpdate (fu.payload.finalizedHeader.slot - 2)
        { finalizedBlockRoot := fu.finalizedHeaderBlockRoot,
          blockRootsTree := fu.blockRootsTree,
          slot := fu.payload.finalizedHeader.slot }
      ∈ (generateBeaconDataRun (runStub syn io (Spec.toString sp))).1 := by
  rw [← uint64Sub_eq_sub fu.payload.finalizedHeader.slot h2 hlt]
  exact reaches_header_fetch sp syn io c su fu hc hpeq hsu hw2 hfu hw3 hpf hat

theorem claim_C3_witness :
    (2 : Nat) ≤ 1000 ∧ (1000 : Nat) < uint64Mod ∧
    Event.fetchHeaderUpdate (1000 - 2)
        { finalizedBlockRoot := "0xf00d", blockRootsTree := ["0xcc33", "0xcc34"],
          slot := 1000 }
      ∈ (generateBeaconDataRun (runStub sampleSyncer sampleIo (Spec.toString .minimal))).1 :=
  ⟨by decide, by decide,
   claim_C3_header_update_target .minimal sampleSyncer sampleIo sampleCheckpointScale
     sampleSyncScale sampleFinalizedScale rfl rfl rfl rfl rfl rfl rfl (by decide)
     (by decide) (by decide)⟩

/-- C10: the target-slot computation finalizedHeader.slot - 2 is
unguarded uint64 arithmetic: when the finalized header slot is less than
2 the computed slot wraps around modulo 2^64 and is passed to the
header-update fetch without any range check or error. -/
theorem claim_C10_target_slot_wraps (sp : Spec) (syn : Syncer) (io : IoStub)
    (c : CheckPointScale) (su fu : UpdateScale)
    (hc : syn.getCheckpoint = .ok c)
    (hpeq : syn.computeSyncPeriodAtSlot c.toJSONv.header.slot =
      syn.computeSyncPeriodAtSlot (c.toJSONv.header.slot + 5))
    (hsu : syn.getSyncCommitteePeriodUpdate
      (syn.computeSyncPeriodAtSlot (c.toJSONv.header.slot + 5)) = .ok su)
    (hw2 : io.writeOk
      (fixturePath ("sync-committee-update." ++ Spec.toString sp ++ ".json")) = none)
    (hfu : syn.getFinalizedUpdate = .ok fu)
    (hw3 : io.writeOk
      (fixturePath ("finalized-header-update." ++ Spec.toString sp ++ ".json")) = none)
    (hpf : syn.computeSyncPeriodAtSlot c.toJSONv.header.slot =
      syn.computeSyncPeriodAtSlot fu.payload.toJSONv.signatureSlot)
    (hat : c.toJSONv.header.slot < fu.payload.toJSONv.attestedHeader.slot)
    (hwrap : fu.payload.finalizedHeader.slot < 2) :
    Event.fetchHeaderUpdate (fu.payload.finalizedHeader.slot + (uint64Mod - 2))
        { finalizedBlockRoot := fu.finalizedHeaderBlockRoot,
          blockRootsTree := fu.blockRootsTree,
          slot := fu.payload.finalizedHeader.slot }
      ∈ (generateBeaconDataRun (runStub syn io (Spec.toString sp))).1 := by
  rw [← uint64Sub_wrap fu.payload.finalizedHeader.slot hwrap]
  exact reaches_header_fetch sp syn io c su fu hc hpeq hsu hw2 hfu hw3 hpf hat

theorem claim_C10_witness :
    (1 : Nat) < 2 ∧
    Event.fetchHeaderUpdate 18446744073709551615
        { finalizedBlockRoot := "0xf00d", blockRootsTree := ["0xcc33"], slot := 1 }
      ∈ (generateBeaconDataRun (runStub wrapSyncer sampleIo (Spec.toString .minimal))).1 :=
  ⟨by decide,
   claim_C10_target_slot_wraps .minimal wrapSyncer sampleIo sampleCheckpointScale
     sampleSyncScale wrapFinalizedScale rfl rfl rfl rfl rfl rfl rfl (by decide)
     (by decide)⟩

/-- The full event trace of a successful mainnet run: the four fixture
writes carry the original (still 0x-marked) JSON artifacts, and only
after the fourth write is the canonicalized record rendered and the
benchmark file written. -/
theorem mainnet_success_trace (syn : Syncer) (io : IoStub)
    (c : CheckPointScale) (su fu : UpdateScale) (hu : HeaderUpdateScale)
    (hc : syn.getCheckpoint = .ok c)
    (hw : ∀ p, io.writeOk p = none)
    (hpeq : syn.computeSyncPeriodAtSlot c.toJSONv.header.slot =
      syn.computeSyncPeriodAtSlot (c.toJSONv.header.slot + 5))
    (hsu : syn.getSyncCommitteePeriodUpdate
      (syn.computeSyncPeriodAtSlot (c.toJSONv.header.slot + 5)) = .ok su)
    (hfu : syn.getFinalizedUpdate = .ok fu)
    (hpf : syn.computeSyncPeriodAtSlot c.toJSONv.header.slot =
      syn.computeSyncPeriodAtSlot fu.payload.toJSONv.signatureSlot)
    (hat : c.toJSONv.header.slot < fu.payload.toJSONv.attestedHeader.slot)
    (hhu : syn.getNextHeaderUpdateBySlotWithAncestryProof
      (uint64Sub fu.payload.finalizedHeader.slot 2)
      { finalizedBlockRoot := fu.finalizedHeaderBlockRoot,
        blockRootsTree := fu.blockRootsTree,
        slot := fu.payload.finalizedHeader.slot } = .ok hu) :
    generateBeaconDataInner syn io .mainnet =
      ([.fetchCheckpoint,
        .write (fixturePath "initial-checkpoint.mainnet.json") (.checkpoint c.toJSONv) true,
        .sleep 30,
        .fetchSyncCommitteeUpdate (syn.computeSyncPeriodAtSlot (c.toJSONv.header.slot + 5)),
        .write (fixturePath "sync-committee-update.mainnet.json")
          (.update su.payload.toJSONv) true,
        .fetchFinalizedUpdate,
        .write (fixturePath "finalized-header-update.mainnet.json")
          (.update fu.payload.toJSONv) true,
        .fetchHeaderUpdate (uint64Sub fu.payload.finalizedHeader.slot 2)
          { finalizedBlockRoot := fu.finalizedHeaderBlockRoot,
            blockRootsTree := fu.blockRootsTree,
            slot := fu.payload.finalizedHeader.slot },
        .write (fixturePath "execution-header-update.mainnet.json")
          (.headerUpdate hu.toJSONv) true,
        .render (mainnetData c su fu hu),
        .writeBench (benchmarkPath "fixtures.rs")
          ((io.renderFile (mainnetData c su fu hu)).1) true],
       none) := by
  simp only [generateBeaconDataInner, hc, hsu, hfu, hhu, writeJSONToFile,
    writeBenchmarkDataFile, hw, Option.map_none, Option.isNone_none, Spec.toString]
  rw [if_neg (by simp [hpeq])]
  rw [if_neg (by simp [hpf])]
  rw [if_neg (by simp [Nat.not_le, hat])]
  simp [mainnetData, Spec.isMainnet]

/-- The full event trace of a successful minimal run: the run ends after
the four fixture writes, with no rendering and no benchmark write. -/
theorem minimal_success_trace (syn : Syncer) (io : IoStub)
    (c : CheckPointScale) (su fu : UpdateScale) (hu : HeaderUpdateScale)
    (hc : syn.getCheckpoint = .ok c)
    (hw : ∀ p, io.writeOk p = none)
    (hpeq : syn.computeSyncPeriodAtSlot c.toJSONv.header.slot =
      syn.computeSyncPeriodAtSlot (c.toJSONv.header.slot + 5))
    (hsu : syn.getSyncCommitteePeriodUpdate
      (syn.computeSyncPeriodAtSlot (c.toJSONv.header.slot + 5)) = .ok su)
    (hfu : syn.getFinalizedUpdate = .ok fu)
    (hpf : syn.computeSyncPeriodAtSlot c.toJSONv.header.slot =
      syn.computeSyncPeriodAtSlot fu.payload.toJSONv.signatureSlot)
    (hat : c.toJSONv.header.slot < fu.payload.toJSONv.attestedHeader.slot)
    (hhu : syn.getNextHeaderUpdateBySlotWithAncestryProof
      (uint64Sub fu.payload.finalizedHeader.slot 2)
      { finalizedBlockRoot := fu.finalizedHeaderBlockRoot,
        blockRootsTree := fu.blockRootsTree,
        slot := fu.payload.finalizedHeader.slot } = .ok hu) :
    generateBeaconDataInner syn io .minimal =
      ([.fetchCheckpoint,
        .write (fixturePath "initial-checkpoint.minimal.json") (.checkpoint c.toJSONv) true,
        .sleep 30,
        .fetchSyncCommitteeUpdate (syn.computeSyncPeriodAtSlot (c.toJSONv.header.slot + 5)),
        .write (fixturePath "sync-committee-update.minimal.json")
          (.update su.payload.toJSONv) true,
        .fetchFinalizedUpdate,
        .write (fixturePath "finalized-header-update.minimal.json")
          (.update fu.payload.toJSONv) true,
        .fetchHeaderUpdate (uint64Sub fu.payload.finalizedHeader.slot 2)
          { finalizedBlockRoot := fu.finalizedHeaderBlockRoot,
            blockRootsTree := fu.blockRootsTree,
            slot := fu.payload.finalizedHeader.slot },
        .write (fixturePath "execution-header-update.minimal.json")
          (.headerUpdate hu.toJSONv) true],
       none) := by
  simp only [generateBeaconDataInner, hc, hsu, hfu, hhu, writeJSONToFile,
    writeBenchmarkDataFile, hw, Option.map_none, Option.isNone_none, Spec.toString]
  rw [if_neg (by simp [hpeq])]
  rw [if_neg (by simp [hpf])]
  rw [if_neg (by simp [Nat.not_le, hat])]
  simp [Spec.isMainnet]

/-- Bridge from a computed `List.all` check to the elementwise
no-benchmark/no-render form. -/
theorem all_no_bench_render {l : List Event}
    (h : l.all (fun x => (! (x.isWriteBench)) && (! (x.isRender))) = true) :
    ∀ e ∈ l, e.isWriteBench = false ∧ e.isRender = false := by
  intro e he
  have hx := (List.all_eq_true.mp h) e he
  simp only [Bool.and_eq_true, Bool.not_eq_true'] at hx
  exact hx

/-- C8: the canonicalize-and-render stage runs iff the spec is mainnet:
a mainnet run writes exactly one benchmark file, named fixtures.rs under
the fixed benchmark-data directory, while a minimal run with the same
collaborators renders nothing and writes no benchmark file. -/
theorem claim_C8_benchmark_iff_mainnet (syn : Syncer) (io : IoStub)
    (c : CheckPointScale) (su fu : UpdateScale) (hu : HeaderUpdateScale)
    (hc : syn.getCheckpoint = .ok c)
    (hw : ∀ p, io.writeOk p = none)
    (hpeq : syn.computeSyncPeriodAtSlot c.toJSONv.header.slot =
      syn.computeSyncPeriodAtSlot (c.toJSONv.header.slot + 5))
    (hsu : syn.getSyncCommitteePeriodUpdate
      (syn.computeSyncPeriodAtSlot (c.toJSONv.header.slot + 5)) = .ok su)
    (hfu : syn.getFinalizedUpdate = .ok fu)
    (hpf : syn.computeSyncPeriodAtSlot c.toJSONv.header.slot =
      syn.computeSyncPeriodAtSlot fu.payload.toJSONv.signatureSlot)
    (hat : c.toJSONv.header.slot < fu.payload.toJSONv.attestedHeader.slot)
    (hhu : syn.getNextHeaderUpdateBySlotWithAncestryProof
      (uint64Sub fu.payload.finalizedHeader.slot 2)
      { finalizedBlockRoot := fu.finalizedHeaderBlockRoot,
        blockRootsTree := fu.blockRootsTree,
        slot := fu.payload.finalizedHeader.slot } = .ok hu) :
    ((generateBeaconDataRun (runStub syn io (Spec.toString .mainnet))).1.filter
        Event.isWriteBench
      = [.writeBench (benchmarkPath "fixtures.rs")
          ((io.renderFile (mainnetData c su fu hu)).1) true]) ∧
    (∀ e ∈ (generateBeaconDataRun (runStub syn io (Spec.toString .minimal))).1,
      e.isWriteBench = false ∧ e.isRender = false) := by
  constructor
  · rw [generateBeaconDataRun_runStub,
      mainnet_success_trace syn io c su fu hu hc hw hpeq hsu hfu hpf hat hhu]
    simp [Event.isWriteBench, List.filter]
  · rw [generateBeaconDataRun_runStub,
      minimal_success_trace syn io c su fu hu hc hw hpeq hsu hfu hpf hat hhu]
    exact all_no_bench_render rfl

theorem claim_C8_witness :
    ((generateBeaconDataRun (runStub sampleSyncer sampleIo (Spec.toString .mainnet))).1.filter
        Event.isWriteBench
      = [.writeBench (benchmarkPath "fixtures.rs") "bench source" true]) ∧
    ((Event.sleep 30).isWriteBench = false ∧ (Event.sleep 30).isRender = false) :=
  ⟨(claim_C8_benchmark_iff_mainnet sampleSyncer sampleIo sampleCheckpointScale
      sampleSyncScale sampleFinalizedScale sampleHeaderScale rfl (fun _ => rfl) rfl rfl rfl
      rfl (by decide) rfl).1,
   (claim_C8_benchmark_iff_mainnet sampleSyncer sampleIo sampleCheckpointScale
      sampleSyncScale sampleFinalizedScale sampleHeaderScale rfl (fun _ => rfl) rfl rfl rfl
      rfl (by decide) rfl).2 (Event.sleep 30) (by decide)⟩

/-- C7: the hash canonicalization is idempotent on well-formed artifacts
(an already-stripped hash field is left unchanged), and in a successful
mainnet run the four JSON fixtures are written with the original marked
form because the stripping happens only after all four fixture files are
written, feeding only the render step. -/
theorem claim_C7_canonicalize_idempotent
    (x1 : CheckPointJSON) (x2 x3 : UpdateJSON) (x4 : HeaderUpdateJSON)
    (h1 : x1.hashes.all isHashField = true) (h2 : x2.hashes.all isHashField = true)
    (h3 : x3.hashes.all isHashField = true) (h4 : x4.hashes.all isHashField = true)
    (syn : Syncer) (io : IoStub)
    (c : CheckPointScale) (su fu : UpdateScale) (hu : HeaderUpdateScale)
    (hc : syn.getCheckpoint = .ok c)
    (hw : ∀ p, io.writeOk p = none)
    (hpeq : syn.computeSyncPeriodAtSlot c.toJSONv.header.slot =
      syn.computeSyncPeriodAtSlot (c.toJSONv.header.slot + 5))
    (hsu : syn.getSyncCommitteePeriodUpdate
      (syn.computeSyncPeriodAtSlot (c.toJSONv.header.slot + 5)) = .ok su)
    (hfu : syn.getFinalizedUpdate = .ok fu)
    (hpf : syn.computeSyncPeriodAtSlot c.toJSONv.header.slot =
      syn.computeSyncPeriodAtSlot fu.payload.toJSONv.signatureSlot)
    (hat : c.toJSONv.header.slot < fu.payload.toJSONv.attestedHeader.slot)
    (hhu : syn.getNextHeaderUpdateBySlotWithAncestryProof
      (uint64Sub fu.payload.finalizedHeader.slot 2)
      { finalizedBlockRoot := fu.finalizedHeaderBlockRoot,
        blockRootsTree := fu.blockRootsTree,
        slot := fu.payload.finalizedHeader.slot } = .ok hu) :
    (x1.removeLeadingZeroHashes.removeLeadingZeroHashes = x1.removeLeadingZeroHashes) ∧
    (x2.removeLeadingZeroHashes.removeLeadingZeroHashes = x2.removeLeadingZeroHashes) ∧
    (x3.removeLeadingZeroHashes.removeLeadingZeroHashes = x3.removeLeadingZeroHashes) ∧
    (x4.removeLeadingZeroHashes.removeLeadingZeroHashes = x4.removeLeadingZeroHashes) ∧
    generateBeaconDataRun (runStub syn io (Spec.toString .mainnet)) =
      ([.fetchCheckpoint,
        .write (fixturePath "initial-checkpoint.mainnet.json") (.checkpoint c.toJSONv) true,
        .sleep 30,
        .fetchSyncCommitteeUpdate (syn.computeSyncPeriodAtSlot (c.toJSONv.header.slot + 5)),
        .write (fixturePath "sync-committee-update.mainnet.json")
          (.update su.payload.toJSONv) true,
        .fetchFinalizedUpdate,
        .write (fixturePath "finalized-header-update.mainnet.json")
          (.update fu.payload.toJSONv) true,
        .fetchHeaderUpdate (uint64Sub fu.payload.finalizedHeader.slot 2)
          { finalizedBlockRoot := fu.finalizedHeaderBlockRoot,
            blockRootsTree := fu.blockRootsTree,
            slot := fu.payload.finalizedHeader.slot },
        .write (fixturePath "execution-header-update.mainnet.json")
          (.headerUpdate hu.toJSONv) true,
        .render (mainnetData c su fu hu),
        .writeBench (benchmarkPath "fixtures.rs")
          ((io.renderFile (mainnetData c su fu hu)).1) true],
       none) := by
  refine ⟨checkPointJSON_strip_idem x1 h1, updateJSON_strip_idem x2 h2,
    updateJSON_strip_idem x3 h3, headerUpdateJSON_strip_idem x4 h4, ?_⟩
  rw [generateBeaconDataRun_runStub]
  exact mainnet_success_trace syn io c su fu hu hc hw hpeq hsu hfu hpf hat hhu

theorem claim_C7_witness :
    (CheckPointJSON.removeLeadingZeroHashes
        (CheckPointJSON.removeLeadingZeroHashes ⟨⟨0⟩, ["0xab", "cd"]⟩)
      = CheckPointJSON.removeLeadingZeroHashes ⟨⟨0⟩, ["0xab", "cd"]⟩) ∧
    (generateBeaconDataRun (runStub sampleSyncer sampleIo (Spec.toString .mainnet))).2 =
      none := by
  have h := claim_C7_canonicalize_idempotent ⟨⟨0⟩, ["0xab", "cd"]⟩ ⟨⟨0⟩, 0, ["0xcd"]⟩
    ⟨⟨0⟩, 0, []⟩ ⟨["ff"]⟩ (by decide) (by decide) (by decide) (by decide)
    sampleSyncer sampleIo sampleCheckpointScale sampleSyncScale sampleFinalizedScale
    sampleHeaderScale rfl (fun _ => rfl) rfl rfl rfl rfl (by decide) rfl
  exact ⟨h.1, by rw [h.2.2.2.2]⟩

/-- C6 (code-bug evidence): the error of the initial-checkpoint fixture
write is assigned but never checked, so a run whose first write fails
still executes every later stage and even reports success; likewise the
mustache render error is ignored and the (empty) render output is still
written to the benchmark file. -/
theorem claim_C6_ignored_write_and_render_errors :
    (Event.write (fixturePath "initial-checkpoint.minimal.json")
        (.checkpoint sampleCheckpointScale.toJSONv) false
      ∈ (generateBeaconDataRun (runStub sampleSyncer failInitialWriteIo
          (Spec.toString .minimal))).1) ∧
    (Event.fetchSyncCommitteeUpdate 1
      ∈ (generateBeaconDataRun (runStub sampleSyncer failInitialWriteIo
          (Spec.toString .minimal))).1) ∧
    ((generateBeaconDataRun (runStub sampleSyncer failInitialWriteIo
        (Spec.toString .minimal))).2 = none) ∧
    ((failRenderIo.renderFile (mainnetData sampleCheckpointScale sampleSyncScale
        sampleFinalizedScale sampleHeaderScale)).2 = some "template not found") ∧
    (Event.writeBench (benchmarkPath "fixtures.rs") "" true
      ∈ (generateBeaconDataRun (runStub sampleSyncer failRenderIo
          (Spec.toString .mainnet))).1) := by
  refine ⟨?_, ?_, rfl, rfl, ?_⟩ <;> decide

/-- C9 (code-bug evidence): the command registers the bool flag
"export-json" with default true, but the run reads the undefined name
"export_json", so the export branch is never taken: no JSON file is
written, only the hex call payload is printed. -/
theorem claim_C9_export_flag_never_read :
    (lookupBy sampleCheckpointStub.flags.bools "export-json" = some true) ∧
    (sampleCheckpointStub.flags.getBool "export_json" =
      (false, some "flag accessed but not defined: export_json")) ∧
    ((generateBeaconCheckpointRun sampleCheckpointStub).1.all
      (fun e => ! (e.isWrite)) = true) ∧
    (Event.println "0x3200001aff" ∈ (generateBeaconCheckpointRun sampleCheckpointStub).1) := by
  refine ⟨rfl, rfl, rfl, ?_⟩
  decide
